import Mathlib

/-!
Shallow embedding of the JobWebScraper pipeline (src/server.py) and proofs
about its reconciliation, filtering, date parsing, adapter error handling,
per-source CSV writing and run-controller sequencing.
-/

set_option maxRecDepth 4000

namespace JobScraper

/-! ## Text utilities (modelling Python string operations) -/

/-- Python whitespace characters relevant to `int(...)` and `.strip()`. -/
def isPySpace (c : Char) : Bool :=
  c = ' ' || c = '\t' || c = '\n' || c = '\r'

/-- Case-insensitive character comparison (ASCII lowering, as Python
`.lower()` behaves on the ASCII text this program handles). -/
def charEqCI (p c : Char) : Bool := p.toLower = c.toLower

/-- Does the needle occur, case-insensitively, at the start of the haystack? -/
def startCI : List Char → List Char → Bool
  | [], _ => true
  | _ :: _, [] => false
  | p :: ps, c :: cs => charEqCI p c && startCI ps cs

/-- Does the needle occur, case-insensitively, anywhere in the haystack?
Models Python `needle in hay.lower()` for an already-lowercase needle. -/
def searchCI (needle : List Char) : List Char → Bool
  | [] => startCI needle []
  | c :: cs => startCI needle (c :: cs) || searchCI needle cs

/-- Python `needle in hay.lower()` / case-insensitive substring test. -/
def inStrCI (needle hay : String) : Bool :=
  searchCI needle.toList hay.toList

/-- One regex pattern character against one text character: `.` is the
any-character-but-newline wildcard, everything else matches literally,
case-insensitively (the exclusion regex is compiled with IGNORECASE). -/
def charMatchRegex (p c : Char) : Bool :=
  (p = '.' && c ≠ '\n') || charEqCI p c

/-- Does the keyword, read as a regex of literals and `.` wildcards, match
at the start of the text? -/
def startRegex : List Char → List Char → Bool
  | [], _ => true
  | _ :: _, [] => false
  | p :: ps, c :: cs => charMatchRegex p c && startRegex ps cs

/-- Does the keyword, read as a regex of literals and `.` wildcards, match
anywhere in the text (Python `re.search` semantics)? -/
def searchRegex (needle : List Char) : List Char → Bool
  | [] => startRegex needle []
  | c :: cs => startRegex needle (c :: cs) || searchRegex needle cs

/-- `re.search` of one alternation branch of the exclusion pattern over a
title, case-insensitive. -/
def regexSearch (needle hay : String) : Bool :=
  searchRegex needle.toList hay.toList

/-- All digits, at least one: the digits body accepted by Python `int`
(underscore separators are not modelled; no input of this program uses
them). -/
def digitsToNat : List Char → Option Nat
  | [] => none
  | cs =>
    if cs.all Char.isDigit then
      some (cs.foldl (fun a c => a * 10 + (c.toNat - 48)) 0)
    else none

/-- Python `int(s)` on a string: optional surrounding whitespace, optional
sign, digits; `none` models the ValueError. -/
def pyInt (s : String) : Option Int :=
  let cs := (s.toList.dropWhile isPySpace).reverse.dropWhile isPySpace |>.reverse
  match cs with
  | '-' :: rest => (digitsToNat rest).map (fun n => -(n : Int))
  | '+' :: rest => (digitsToNat rest).map (fun n => (n : Int))
  | rest => (digitsToNat rest).map (fun n => (n : Int))

/-! ## Dates -/

/-- A calendar date, as produced by Python `datetime.date`. -/
structure Date where
  year : Int
  month : Nat
  day : Nat
deriving DecidableEq, Repr

/-- Result of `convert_to_date`: either a date or the literal string
sentinel `"Invalid Date"` that the function returns when nothing parses. -/
inductive DateResult
  | valid (d : Date)
  | invalidDate
deriving DecidableEq, Repr

/-- Civil-from-days: the Gregorian date for a count of days since
1970-01-01 (the conversion used by `datetime.utcfromtimestamp(...).date()`).
Standard era-based algorithm. -/
def civilFromDays (z0 : Int) : Date :=
  let z := z0 + 719468
  let era : Int := (if 0 ≤ z then z else z - 146096) / 146097
  let doe : Int := z - era * 146097
  let yoe : Int := (doe - doe / 1460 + doe / 36524 - doe / 146096) / 365
  let y : Int := yoe + era * 400
  let doy : Int := doe - (365 * yoe + yoe / 4 - yoe / 100)
  let mp : Int := (5 * doy + 2) / 153
  let d : Int := doy - (153 * mp + 2) / 5 + 1
  let m : Int := mp + (if mp < 10 then 3 else -9)
  ⟨y + (if m ≤ 2 then 1 else 0), m.toNat, d.toNat⟩

/-- `datetime.utcfromtimestamp(ts).date()` for an integer timestamp: floor
divide by 86400 seconds (Python floor division) and convert. Timestamps
outside the range datetime can represent are not modelled (the program
never receives them). -/
def epochToDate (ts : Int) : Date :=
  civilFromDays (ts.fdiv 86400)

/-- Gregorian leap year test. -/
def isLeap (y : Int) : Bool :=
  (y % 4 = 0 && y % 100 ≠ 0) || y % 400 = 0

/-- Days in a month, for the validation `datetime(...)` performs after
`strptime` pattern matching. -/
def daysInMonth (y : Int) (m : Nat) : Nat :=
  if m = 2 then (if isLeap y then 29 else 28)
  else if m = 4 || m = 6 || m = 9 || m = 11 then 30
  else 31

/-! ## strptime-style parsing for the four formats in `convert_to_date` -/

/-- Consume one expected literal character. -/
def pLit (c : Char) : List Char → Option (List Char)
  | x :: xs => if x = c then some xs else none
  | [] => none

/-- Consume exactly four digits (the `%Y` pattern). -/
def pYear : List Char → Option (Nat × List Char)
  | a :: b :: c :: d :: rest =>
    if a.isDigit && b.isDigit && c.isDigit && d.isDigit then
      some (((a.toNat - 48) * 10 + (b.toNat - 48)) * 100 +
              (c.toNat - 48) * 10 + (d.toNat - 48), rest)
    else none
  | _ => none

/-- A two-digit-or-one-digit numeric field, greedy, value-constrained the
way the strptime regexes are (`%m`: 1..12, `%d`: 1..31, `%H`: 0..23,
`%M`/`%S`: 0..59; a two-digit form of `00` is only allowed when `lo = 0`). -/
def pNum2 (lo hi : Nat) : List Char → Option (Nat × List Char)
  | a :: b :: rest =>
    if a.isDigit && b.isDigit then
      let v := (a.toNat - 48) * 10 + (b.toNat - 48)
      if lo ≤ v && v ≤ hi then some (v, rest)
      else if lo ≤ a.toNat - 48 && a.toNat - 48 ≤ hi then some (a.toNat - 48, b :: rest)
      else none
    else if a.isDigit && lo ≤ a.toNat - 48 && a.toNat - 48 ≤ hi then
      some (a.toNat - 48, b :: rest)
    else none
  | [a] =>
    if a.isDigit && lo ≤ a.toNat - 48 && a.toNat - 48 ≤ hi then some (a.toNat - 48, [])
    else none
  | [] => none

/-- `%f`: one to six fractional-second digits, greedy. -/
def pFrac : List Char → Option (List Char)
  | cs =>
    let digits := (cs.takeWhile Char.isDigit).take 6
    if digits.isEmpty then none else some (cs.drop digits.length)

/-- `%z`: a literal uppercase `Z`, or a sign followed by `HH[:?]MM` with the
offset inside the strict 24-hour bound `datetime.timezone` enforces
(seconds-bearing offsets are not modelled; no source emits them). -/
def pTZ : List Char → Option (List Char)
  | 'Z' :: rest => some rest
  | s :: h1 :: h2 :: rest =>
    if (s = '+' || s = '-') && h1.isDigit && h2.isDigit then
      let hh := (h1.toNat - 48) * 10 + (h2.toNat - 48)
      let rest' := match rest with
        | ':' :: r => some r
        | r => some r
      match rest' with
      | some (m1 :: m2 :: r2) =>
        if m1.isDigit && m2.isDigit then
          let mm := (m1.toNat - 48) * 10 + (m2.toNat - 48)
          if hh * 60 + mm < 24 * 60 && mm ≤ 59 then some r2 else none
        else none
      | _ => none
    else none
  | _ => none

/-- The shared `%Y-%m-%dT%H:%M:%S` core of all four formats. -/
def pCore (cs : List Char) : Option (Nat × Nat × Nat × List Char) :=
  match pYear cs with
  | none => none
  | some (y, cs) =>
    match pLit '-' cs with
    | none => none
    | some cs =>
      match pNum2 1 12 cs with
      | none => none
      | some (mo, cs) =>
        match pLit '-' cs with
        | none => none
        | some cs =>
          match pNum2 1 31 cs with
          | none => none
          | some (d, cs) =>
            match pLit 'T' cs with
            | none => none
            | some cs =>
              match pNum2 0 23 cs with
              | none => none
              | some (_, cs) =>
                match pLit ':' cs with
                | none => none
                | some cs =>
                  match pNum2 0 59 cs with
                  | none => none
                  | some (_, cs) =>
                    match pLit ':' cs with
                    | none => none
                    | some cs =>
                      match pNum2 0 59 cs with
                      | none => none
                      | some (_, cs) => some (y, mo, d, cs)

/-- The four formats tried by `convert_to_date`, in source order. -/
inductive Fmt
  | isoOffset     -- "%Y-%m-%dT%H:%M:%S%z"
  | isoFracOffset -- "%Y-%m-%dT%H:%M:%S.%f%z"
  | isoZ          -- "%Y-%m-%dT%H:%M:%SZ"
  | isoFracZ      -- "%Y-%m-%dT%H:%M:%S.%fZ"
deriving DecidableEq, Repr

/-- `datetime.strptime(s, fmt).date()`: pattern-match the whole string,
then apply the validation the `datetime` constructor performs (year at
least 1, day within the month). -/
def strptimeDate (f : Fmt) (s : String) : Option Date :=
  let tail : Option (Nat × Nat × Nat) :=
    match pCore s.toList with
    | none => none
    | some (y, mo, d, cs) =>
      let fin : Option (List Char) :=
        match f with
        | .isoOffset => pTZ cs
        | .isoFracOffset =>
          match pLit '.' cs with
          | none => none
          | some cs => match pFrac cs with
            | none => none
            | some cs => pTZ cs
        | .isoZ => pLit 'Z' cs
        | .isoFracZ =>
          match pLit '.' cs with
          | none => none
          | some cs => match pFrac cs with
            | none => none
            | some cs => pLit 'Z' cs
      match fin with
      | some [] => some (y, mo, d)
      | _ => none
  match tail with
  | none => none
  | some (y, mo, d) =>
    if 1 ≤ y && d ≤ daysInMonth (y : Int) mo then some ⟨(y : Int), mo, d⟩
    else none

/-- The format list of `convert_to_date`, in source order. -/
def formats : List Fmt := [.isoOffset, .isoFracOffset, .isoZ, .isoFracZ]

/-- First format that parses wins. -/
def firstParse (s : String) : List Fmt → Option Date
  | [] => none
  | f :: fs =>
    match strptimeDate f s with
    | some d => some d
    | none => firstParse s fs

/-- `convert_to_date` from src/server.py: try the string as a Unix epoch
integer first (`int` failure is caught), then each textual format in
order, else return the `"Invalid Date"` sentinel. The duplicated
unreachable block after the first return in the source is dead code and
has no effect. -/
def convert_to_date (s : String) : DateResult :=
  match pyInt s with
  | some n => .valid (epochToDate n)
  | none =>
    match firstParse s formats with
    | some d => .valid d
    | none => .invalidDate

/-! ## Data model: rows of the per-source CSV files and of the history -/

/-- One job row as the adapters build it: the dict keys are `Company`,
`Job`, `Details`, `Date/Time Posted`, `Link` and `YC` (the provenance
column is literally named `YC` in the source). -/
structure Row where
  company : String
  job : String
  details : String
  datePosted : String
  link : String
  yc : String
deriving DecidableEq, Repr

/-- One row of the historical ledger (`Company`, `Job`, `Link`). -/
structure HRow where
  company : String
  job : String
  link : String
deriving DecidableEq, Repr

/-- The `new_jobs[["Company", "Job", "Link"]]` projection. -/
def Row.toHist (r : Row) : HRow := ⟨r.company, r.job, r.link⟩

/-- The `history_df["Link"]` column. -/
def linksOf (h : List HRow) : List String := h.map HRow.link

/-- Rendering of a `Date` the way pandas writes a `datetime.date` cell. -/
def pad2 (n : Nat) : String := if n < 10 then "0" ++ toString n else toString n

/-- String form of a `DateResult` as it lands in a CSV cell. -/
def showDateResult : DateResult → String
  | .valid d => toString d.year ++ "-" ++ pad2 d.month ++ "-" ++ pad2 d.day
  | .invalidDate => "Invalid Date"

/-! ## Per-Source Writer: `pd.DataFrame(jobs_data).to_csv(path, index=False)` -/

/-- The header row pandas derives from the dict keys of a nonempty
`jobs_data` list. -/
def headerFields : List String :=
  ["Company", "Job", "Details", "Date/Time Posted", "Link", "YC"]

/-- The cells of one data row in the order of the dict keys. -/
def rowFields (r : Row) : List String :=
  [r.company, r.job, r.details, r.datePosted, r.link, r.yc]

/-- `pd.DataFrame(jobs_data).to_csv(..., index=False)`, the file modelled
as its list of rows, each row a list of cells. `pd.DataFrame([])` has no
columns at all, so the file holds a single empty row (a lone newline),
with no header. -/
def to_csv (rows : List Row) : List (List String) :=
  if rows.isEmpty then [[]]
  else headerFields :: rows.map rowFields

/-- Modelled from the spec: the header the specification asserts for every
per-source artifact (`Company, Job, Details, Date/Time Posted, Link,
Source`), for comparison with the header the code writes. -/
def specHeaderFields : List String :=
  ["Company", "Job", "Details", "Date/Time Posted", "Link", "Source"]

/-! ## Aggregator exclusion filter -/

/-- `combined_data["Job"].str.contains(join(keywords, "|"), case=False,
na=False)` compiles the keyword list into one alternation regex: a title
is flagged when some keyword, read as a regex (with `.` a wildcard),
matches somewhere, case-insensitively. The keyword lists of the repository are
nonempty and keyword-internal `|` never occurs, so the alternation is
exactly the disjunction over the list. -/
def dropTitle (keywords : List String) (title : String) : Bool :=
  keywords.any (fun k => regexSearch k title)

/-- Modelled from the spec: the exclusion test the specification
describes, a case-insensitive plain substring match against each keyword. -/
def specSubstringDrop (keywords : List String) (title : String) : Bool :=
  keywords.any (fun k => inStrCI k title)

/-- The DS pass exclusion keywords from `lambda_handler`. -/
def dsExclusionKeywords : List String :=
  ["Sr.", "Sr", "Staff", "Principal", "lead", "Senior", "PHD", "intern", "india"]

/-- The CS pass exclusion keywords from `lambda_handler`. -/
def csExclusionKeywords : List String :=
  ["Sr.", "Staff", "Principal", "lead", "Senior", "intern", "india"]

/-! ## History reconciliation inside `combine_csv_files` -/

/-- `new_jobs`: the candidate rows whose `Link` is not in the history
(`combined_data[~combined_data["Link"].isin(history_df["Link"])]`; an
empty history takes the other branch and keeps everything, which the
filter also does). -/
def newJobs (combined : List Row) (history : List HRow) : List Row :=
  if history.isEmpty then combined
  else combined.filter (fun r => !((linksOf history).contains r.link))

/-- The reconciliation pair: the new postings and the updated history
`pd.concat([history_df, new_jobs[["Company", "Job", "Link"]]])`. When no
new posting exists the source never builds the concatenation, which is
then equal to the unchanged history. -/
def reconcile (combined : List Row) (history : List HRow) :
    List Row × List HRow :=
  let nj := newJobs combined history
  (nj, history ++ nj.map Row.toHist)

/-- Observable outcome of the post-read phase of `combine_csv_files`:
which history (if any) was pushed to S3, and which rows (if any) were
written to the combined CSV. -/
structure CombineOutcome where
  persistedHistory : Option (List HRow)
  combinedFile : Option (List Row)
deriving DecidableEq, Repr

/-- The post-read phase of `combine_csv_files`, on the concatenated rows
of the per-source files: nothing happens when no rows were read; else the
exclusion filter runs, then the history filter; the updated history is
persisted only when there are new jobs, while the combined CSV is written
either way (with the new jobs, or with the full exclusion-filtered data
when every job was already in the history). -/
def combine_csv_files (rows : List Row) (keywords : List String)
    (history : List HRow) : CombineOutcome :=
  if rows.isEmpty then ⟨none, none⟩
  else
    let filtered := rows.filter (fun r => !dropTitle keywords r.job)
    let nj := newJobs filtered history
    if nj.isEmpty then ⟨none, some filtered⟩
    else ⟨some (history ++ nj.map Row.toHist), some nj⟩

/-! ## Source Adapters

A remote response is modelled as its status code plus the decoded payload
the code reads out of it; each Python dynamic failure (KeyError,
IndexError, TypeError, AttributeError) on that payload is an explicit
`raised` outcome. The classification oracle is a function from the
posting context string to `Except` (transport or oracle errors on the
left); the fixed instruction text wrapped around the context in the
prompt is not modelled. -/

/-- Outcome of processing one job item inside an adapter loop. -/
inductive ItemStep
  | raised (err : String)
  | skipped
  | kept (r : Row)
deriving DecidableEq, Repr

/-- The observable outcome of an adapter: either the accumulated rows plus
whether its CSV got written and what it printed, or an exception that
escaped to the caller. -/
inductive AdapterResult
  | ok (rows : List Row) (fileWritten : Bool) (logs : List String)
  | raised (err : String)
deriving DecidableEq, Repr

/-- Run the per-item step over the jobs list, left to right; the first
exception aborts the whole loop (and hence the adapter). -/
def runItems (step : α → ItemStep) : List α → Except String (List Row)
  | [] => .ok []
  | j :: js =>
    match step j with
    | .raised e => .error e
    | .skipped => runItems step js
    | .kept r =>
      match runItems step js with
      | .error e => .error e
      | .ok rs => .ok (r :: rs)

/-- `job.get("properties")` payload of a Microsoft job. -/
structure MSProps where
  primaryLocation : Option String
deriving DecidableEq, Repr

/-- One entry of the Microsoft search result `jobs` list; `none` fields
model absent keys (`dict.get` returning `None`). -/
structure MSJob where
  title : Option String
  postingDate : Option String
  properties : Option MSProps
  jobId : Option String
deriving DecidableEq, Repr

/-- A response of the Microsoft search endpoint: HTTP status, whether
`response.json()` decodes, and the decoded jobs list. -/
structure MSResponse where
  status : Nat
  jsonOk : Bool
  jobs : List MSJob
deriving Repr

/-- The body of the Microsoft per-job loop. A missing `postingDate` means
`strptime(None, ...)` raises TypeError; a missing `properties` dict makes
`props.get(...)` raise AttributeError; a missing `jobId` makes the string
concatenation raise TypeError; an unparseable date makes the comparison
`posting_date < seven_days_ago` compare the sentinel string against a
`date` and raise TypeError; a missing title or location makes the prompt
concatenation `job_title + location` raise TypeError. -/
def processMSJob (oracle : String → Except String String) (todayDays : Int)
    (j : MSJob) : ItemStep :=
  match j.postingDate with
  | none => .raised "TypeError: strptime() argument must be str, not None"
  | some ds =>
    let pd := convert_to_date ds
    match j.properties with
    | none => .raised "AttributeError: NoneType object has no attribute get"
    | some props =>
      match j.jobId with
      | none => .raised "TypeError: can only concatenate str (not NoneType) to str"
      | some jid =>
        let link := "https://jobs.careers.microsoft.com/global/en/job/" ++ jid
        let sevenDaysAgo := civilFromDays (todayDays - 7)
        match pd with
        | .invalidDate =>
          .raised "TypeError: < not supported between instances of str and datetime.date"
        | .valid d =>
          if d.year < sevenDaysAgo.year
              || (d.year = sevenDaysAgo.year && (d.month < sevenDaysAgo.month
                  || (d.month = sevenDaysAgo.month && d.day < sevenDaysAgo.day))) then
            .skipped
          else
            match j.title, props.primaryLocation with
            | some t, some loc =>
              match oracle (t ++ loc) with
              | .error e => .raised e
              | .ok ans =>
                if inStrCI "yes" ans then
                  .kept ⟨"Microsoft", t, loc, showDateResult pd, link, "N/A"⟩
                else .skipped
            | _, _ =>
              .raised "TypeError: unsupported operand type for +"

/-- `fetch_microsoft_jobs` on a received response: a non-success status
only prints and writes nothing; a JSON decode failure is caught and
printed, after which the (empty) CSV is still written; otherwise the
per-job loop runs and any exception it raises escapes the adapter. -/
def fetch_microsoft_jobs (oracle : String → Except String String)
    (todayDays : Int) (resp : MSResponse) : AdapterResult :=
  if resp.status = 200 then
    if resp.jsonOk then
      match runItems (processMSJob oracle todayDays) resp.jobs with
      | .error e => .raised e
      | .ok rows => .ok rows true ["Microsoft jobs saved"]
    else .ok [] true ["Error decoding JSON"]
  else .ok [] false ["Failed to fetch data. Status code: " ++ toString resp.status]

/-! ### Venture-board adapter -/

/-- The qualification marker phrases scanned for, in source order. -/
def qualMarkers : List String :=
  ["necessary qualifications", "required qualifications", "technical skills",
   "you have", "about you", "requirement", "qualification", "required"]

/-- The end-of-content phrases, in source order. -/
def endPhrases : List String := ["ready to apply?", "apply for this job"]

/-- First marker phrase present in the page text (`for keyword in
keywords: if keyword in cleaned_text.lower(): ... break`). -/
def findMarker (text : String) : List String → Option String
  | [] => none
  | k :: ks => if inStrCI k text then some k else findMarker text ks

/-- Text after the first case-insensitive occurrence of the needle. -/
def afterFirstCI (k : List Char) : List Char → List Char
  | [] => []
  | c :: rest =>
    if startCI k (c :: rest) then (c :: rest).drop k.length
    else afterFirstCI k rest

/-- Text before the first case-insensitive occurrence of the needle. -/
def beforeFirstCI (k : List Char) : List Char → List Char
  | [] => []
  | c :: rest =>
    if startCI k (c :: rest) then []
    else c :: beforeFirstCI k rest

/-- Python `.strip()` on the whitespace this text carries. -/
def stripSpaces (cs : List Char) : List Char :=
  ((cs.dropWhile isPySpace).reverse.dropWhile isPySpace).reverse

/-- Locate the qualifications-relevant section of a detail page: `none`
when no marker phrase occurs (the item is skipped); otherwise the
lowercased text after the first marker, truncated at the first end
phrase present, stripped. -/
def extractQualText (pageText : String) : Option String :=
  match findMarker pageText qualMarkers with
  | none => none
  | some k =>
    let low := pageText.toList.map Char.toLower
    let t1 := stripSpaces (afterFirstCI k.toList low)
    let t2 :=
      match endPhrases.find? (fun p => searchCI p.toList t1) with
      | some p => stripSpaces (beforeFirstCI p.toList t1)
      | none => t1
    some (String.mk t2)

/-- One entry of a venture-board `jobs` list. `none` fields model absent
keys; `locations` present as an empty list makes `[0]` raise. A scalar
`locations` value is modelled as a one-element list (the code takes the
scalar itself, equal to the single element here). -/
structure VJob where
  url : Option String
  companyName : Option String
  title : Option String
  locations : Option (List String)
  timeStamp : Option String
deriving DecidableEq, Repr

/-- A fetched job detail page: status plus the whitespace-normalised body
text `BeautifulSoup.get_text` yields. -/
structure VDetailPage where
  status : Nat
  text : String
deriving DecidableEq, Repr

/-- A venture-board search response: HTTP status and the payload under
the `"jobs"` key (`none` when the key is absent, making `data["jobs"]`
raise KeyError). For Sequoia the nested parent/child lists are modelled
post-flattening, but the `jobs[0]` peek that flattening performs still
raises IndexError on an empty list. -/
structure VResponse where
  status : Nat
  jobsKey : Option (List VJob)
deriving Repr

/-- The `Details` cell: `job.get("locations", ["N/A"])[0]` when the key
holds a list (IndexError on an empty one), `"N/A"` when absent. -/
def ventureDetails (j : VJob) : Except String String :=
  match j.locations with
  | none => .ok "N/A"
  | some [] => .error "IndexError: list index out of range"
  | some (x :: _) => .ok x

/-- The body of the venture per-job loop: `job["url"]` raises on a
missing key; a non-success detail-page status only prints the status
code and drops the item; a page with no marker phrase is skipped; an
oracle error raises; on an affirmative answer the row is built, where a
missing `timeStamp` key raises KeyError. -/
def processVJob (detailOf : String → VDetailPage)
    (oracle : String → Except String String) (ventureTitle : String)
    (j : VJob) : ItemStep :=
  match j.url with
  | none => .raised "KeyError: url"
  | some u =>
    let page := detailOf u
    if page.status = 200 then
      match extractQualText page.text with
      | none => .skipped
      | some ctext =>
        match oracle ctext with
        | .error e => .raised e
        | .ok ans =>
          if inStrCI "yes" ans then
            match ventureDetails j with
            | .error e => .raised e
            | .ok det =>
              match j.timeStamp with
              | none => .raised "KeyError: timeStamp"
              | some ts =>
                .kept ⟨j.companyName.getD "N/A", j.title.getD "N/A", det,
                       showDateResult (convert_to_date ts), u, ventureTitle⟩
          else .skipped
    else .skipped

/-- `scrape_venture_jobs` on a received search response. A non-success
status prints nothing about the condition and skips the loop; a payload
without a `"jobs"` key raises KeyError; for Sequoia an empty jobs list
raises IndexError at the `jobs[0]` peek. The trailing `to_csv` sits at
function level, so whenever no exception was raised the per-source CSV
is written, empty or not. -/
def scrape_venture_jobs (detailOf : String → VDetailPage)
    (oracle : String → Except String String) (isSequoia : Bool)
    (ventureTitle : String) (resp : VResponse) : AdapterResult :=
  let core : Except String (List Row) :=
    if resp.status = 200 then
      match resp.jobsKey with
      | none => .error "KeyError: jobs"
      | some jobs =>
        if isSequoia && jobs.isEmpty then
          .error "IndexError: list index out of range"
        else runItems (processVJob detailOf oracle ventureTitle) jobs
    else .ok []
  match core with
  | .error e => .raised e
  | .ok rows => .ok rows true ["jobs saved"]

/-! ## Run Controller -/

/-- Observable trace of `lambda_handler`: whether each job-type pass was
entered and the status code of the returned response (500 when the shared
try/except caught an exception, after printing the traceback). -/
structure HandlerTrace where
  dsRan : Bool
  csRan : Bool
  statusCode : Nat
deriving DecidableEq, Repr

/-- `lambda_handler`, abstracting each `main(config)` call to its outcome:
both passes sit inside one `try`, sequentially DS then CS; the first
exception jumps to the single `except`, which logs and returns a 500
response instead of crashing. -/
def lambda_handler (dsPass csPass : Except String Unit) : HandlerTrace :=
  match dsPass with
  | .error _ => ⟨true, false, 500⟩
  | .ok _ =>
    match csPass with
    | .error _ => ⟨true, true, 500⟩
    | .ok _ => ⟨true, true, 200⟩

/-- The two job-type configurations. -/
inductive JobType
  | DS
  | CS
deriving DecidableEq, Repr

/-- The keys of `config.filenames`. -/
inductive SourceKey
  | yc
  | sequoia
  | nextview
  | greylock
  | andreessen
  | combined
  | microsoft
  | amazon
deriving DecidableEq, Repr

/-- `config.filenames.values()` in dict insertion order; the same eight
paths exist for both job types. -/
def allFilenameKeys : List SourceKey :=
  [.yc, .sequoia, .nextview, .greylock, .andreessen, .combined, .microsoft, .amazon]

/-- The files a fully successful scrape pass creates (every remote fetch
succeeding, combined data nonempty): `scrape_yc_jobs` runs only for CS,
so a DS pass never creates the `yc` file. -/
def scrapeWrites : JobType → List SourceKey
  | .CS => [.yc, .sequoia, .nextview, .greylock, .andreessen, .microsoft,
            .amazon, .combined]
  | .DS => [.sequoia, .nextview, .greylock, .andreessen, .microsoft,
            .amazon, .combined]

/-- `files_exist = all(os.path.exists(file) for file in
config.filenames.values())` in `main`, over the set of files present. -/
def files_exist (existing : List SourceKey) : Bool :=
  allFilenameKeys.all (fun k => existing.contains k)

/-! ## Concrete sample data used by counterexamples and witnesses -/

/-- A sample candidate row. -/
def rowA : Row :=
  ⟨"Acme", "Software Engineer", "NYC", "2024-11-14", "https://x/1", "Sequoia"⟩

/-- A second candidate row with the same link as `rowA`. -/
def rowB : Row :=
  ⟨"Acme", "Platform Engineer", "SF", "2024-11-13", "https://x/1", "Greylock"⟩

/-- A candidate row with a distinct link. -/
def rowC : Row :=
  ⟨"Beta", "Data Analyst", "LA", "2024-11-12", "https://x/2", "Nextview"⟩

/-- A detail page whose text carries a marker phrase and an end phrase. -/
def samplePage : VDetailPage :=
  ⟨200, "Team blurb. Required qualifications: you can code. Apply for this job now"⟩

/-- A fully populated venture job with a parseable timestamp. -/
def sampleVJob : VJob :=
  ⟨some "https://x/1", some "Acme", some "Eng", some ["NYC"], some "1731598080"⟩

/-- A venture job whose timestamp string parses as nothing. -/
def sampleVJobBadDate : VJob :=
  ⟨some "https://x/2", some "Beta", some "Eng", some ["NYC"], some "not-a-date"⟩

/-- A Microsoft job whose posting date string parses as nothing. -/
def sampleMSJobBadDate : MSJob :=
  ⟨some "Eng", some "not-a-date", some ⟨some "Redmond"⟩, some "123"⟩

/-! ## Helper lemmas -/

/-- Both branches of the history filter compute the same thing: the
candidates whose link is absent from the history link column. -/
theorem newJobs_eq_filter (C : List Row) (H : List HRow) :
    newJobs C H = C.filter (fun r => !((linksOf H).contains r.link)) := by
  cases H with
  | nil => simp [newJobs, linksOf]
  | cons h t => rfl

/-- A dot-free pattern matches at the front exactly when the plain
case-insensitive comparison does. -/
theorem startRegex_eq_startCI :
    ∀ (k t : List Char), (∀ c ∈ k, c ≠ '.') → startRegex k t = startCI k t := by
  intro k
  induction k with
  | nil => intro t _; rfl
  | cons p ps ih =>
    intro t hk
    cases t with
    | nil => rfl
    | cons c cs =>
      have hp : p ≠ '.' := hk p (List.mem_cons_self p ps)
      have hps : ∀ x ∈ ps, x ≠ '.' := fun x hx => hk x (List.mem_cons_of_mem _ hx)
      simp [startRegex, startCI, charMatchRegex, hp, ih cs hps]

/-- A dot-free pattern is found somewhere exactly when the plain
case-insensitive substring is. -/
theorem searchRegex_eq_searchCI (k : List Char) (hk : ∀ c ∈ k, c ≠ '.') :
    ∀ t, searchRegex k t = searchCI k t := by
  intro t
  induction t with
  | nil => simp [searchRegex, searchCI, startRegex_eq_startCI k [] hk]
  | cons c cs ih =>
    simp [searchRegex, searchCI, startRegex_eq_startCI k (c :: cs) hk, ih]

/-- When the prior history links and the candidate links are each
duplicate-free, the updated history links are duplicate-free. -/
theorem nodup_links (C : List Row) (H : List HRow)
    (hH : (linksOf H).Nodup) (hC : (C.map Row.link).Nodup) :
    ((reconcile C H).2.map HRow.link).Nodup := by
  have hmap : ((reconcile C H).2.map HRow.link)
      = linksOf H ++ (newJobs C H).map Row.link := by
    simp [reconcile, linksOf, Function.comp, Row.toHist]
  rw [hmap, List.nodup_append]
  refine ⟨hH, ?_, ?_⟩
  · have hsub : List.Sublist ((newJobs C H).map Row.link) (C.map Row.link) := by
      rw [newJobs_eq_filter]
      exact (List.filter_sublist C).map Row.link
    exact hC.sublist hsub
  · intro a ha hb
    rw [newJobs_eq_filter] at hb
    obtain ⟨r, hrmem, rfl⟩ := List.mem_map.mp hb
    have h2 := (List.mem_filter.mp hrmem).2
    simp at h2
    exact h2 ha

/-! ## Claim theorems -/

/-- Claim C1, counterexample: when the candidate set itself carries two
rows with the same link and the history is empty, both rows are new and
both projections are concatenated onto the history, so the updated
history holds a duplicate link — the no-duplicate-links part of the
claim fails. -/
theorem C1_dup_link_counterexample :
    ¬ ((reconcile [rowA, rowB] []).2.map HRow.link).Nodup := by decide

/-- Claim C1 (amended): `new_postings` is exactly the candidates whose
link is absent from the history link set; the updated history extends
the prior history and holds the projection of every new posting; and the
updated history has no duplicate links whenever the prior history links
and the candidate links are each duplicate-free (a duplicate link inside
the candidate set itself survives into the updated history, as the
counterexample shows). -/
theorem C1_history_reconciliation (C : List Row) (H : List HRow) :
    (reconcile C H).1 = C.filter (fun r => !((linksOf H).contains r.link))
    ∧ (∀ h ∈ H, h ∈ (reconcile C H).2)
    ∧ (∀ r ∈ (reconcile C H).1, r.toHist ∈ (reconcile C H).2)
    ∧ ((linksOf H).Nodup → (C.map Row.link).Nodup →
        ((reconcile C H).2.map HRow.link).Nodup) := by
  refine ⟨newJobs_eq_filter C H, ?_, ?_, nodup_links C H⟩
  · intro h hh
    simp [reconcile]
    exact Or.inl hh
  · intro r hr
    simp only [reconcile] at hr ⊢
    simp only [List.mem_append, List.mem_map]
    exact Or.inr ⟨r, hr, rfl⟩

/-- Claim C1, witness: the reconciliation theorem applied at a concrete
candidate list and history with duplicate-free links. -/
theorem C1_history_reconciliation_witness :
    ((reconcile [rowA] [Row.toHist rowC]).2.map HRow.link).Nodup :=
  (C1_history_reconciliation [rowA] [Row.toHist rowC]).2.2.2 (by decide) (by decide)

/-- Claim C2, counterexample: with one candidate already in the history
(zero new postings), the run persists nothing to the history ledger and
still writes the combined artifact, holding the exclusion-filtered
candidates — the opposite of both halves of the claim. -/
theorem C2_counterexample :
    (combine_csv_files [rowA] ["zzz"] [Row.toHist rowA]).persistedHistory = none
    ∧ (combine_csv_files [rowA] ["zzz"] [Row.toHist rowA]).combinedFile = some [rowA] := by
  decide

/-- Claim C2 (amended): whenever the concatenated data is nonempty and
reconciliation yields zero new postings, the run does NOT persist the
history ledger (the S3 update is inside the new-jobs branch) and does
NOT short-circuit the output artifact: the combined CSV is still
written, holding the full exclusion-filtered candidate rows. -/
theorem C2_zero_new_postings (rows : List Row) (keywords : List String)
    (history : List HRow) (hne : rows ≠ [])
    (hnj : newJobs (rows.filter (fun r => !dropTitle keywords r.job)) history = []) :
    combine_csv_files rows keywords history =
      ⟨none, some (rows.filter (fun r => !dropTitle keywords r.job))⟩ := by
  simp [combine_csv_files, hne, hnj]

/-- Claim C2, witness: the zero-new-postings theorem at a concrete run. -/
theorem C2_zero_new_postings_witness :
    combine_csv_files [rowA] ["zzz"] [Row.toHist rowA] =
      ⟨none, some ([rowA].filter (fun r => !dropTitle ["zzz"] r.job))⟩ :=
  C2_zero_new_postings [rowA] ["zzz"] [Row.toHist rowA] (by decide) (by decide)

/-- Claim C3, counterexample: a well-received (status 200) Sequoia
response whose jobs list is empty makes the `jobs[0]` peek raise
IndexError out of the adapter — the adapter does raise to its caller on
a malformed or unexpected payload. -/
theorem C3_raise_counterexample :
    scrape_venture_jobs (fun _ => samplePage) (fun _ => Except.ok "Yes") true "Sequoia"
      ⟨200, some []⟩ = AdapterResult.raised "IndexError: list index out of range" := by
  decide

/-- Claim C3 (amended): a non-success response status is handled without
raising — the Microsoft adapter logs the condition and produces no file,
the venture adapter silently writes an empty file — and the Microsoft
JSON-decode failure is caught; but other malformed or unexpected
payloads (missing or empty jobs structures, missing per-item fields)
raise out of the adapter rather than being skipped, as the
counterexample shows. -/
theorem C3_failure_semantics (oracle : String → Except String String)
    (todayDays : Int) (resp : MSResponse) (detailOf : String → VDetailPage)
    (seq : Bool) (vt : String) (vresp : VResponse) :
    (resp.status ≠ 200 → fetch_microsoft_jobs oracle todayDays resp =
      .ok [] false ["Failed to fetch data. Status code: " ++ toString resp.status])
    ∧ (resp.status = 200 → resp.jsonOk = false →
      fetch_microsoft_jobs oracle todayDays resp = .ok [] true ["Error decoding JSON"])
    ∧ (vresp.status ≠ 200 →
      scrape_venture_jobs detailOf oracle seq vt vresp = .ok [] true ["jobs saved"]) := by
  refine ⟨fun h => ?_, fun h1 h2 => ?_, fun h => ?_⟩
  · simp [fetch_microsoft_jobs, h]
  · simp [fetch_microsoft_jobs, h1, h2]
  · simp [scrape_venture_jobs, h]

/-- Claim C3, witness: the failure-semantics theorem at concrete
non-success responses. -/
theorem C3_failure_semantics_witness :
    fetch_microsoft_jobs (fun _ => Except.ok "Yes") 0 ⟨404, true, []⟩ =
      AdapterResult.ok [] false ["Failed to fetch data. Status code: " ++ toString (404 : Nat)]
    ∧ scrape_venture_jobs (fun _ => samplePage) (fun _ => Except.ok "Yes") false "Greylock"
        ⟨500, some []⟩ = AdapterResult.ok [] true ["jobs saved"] :=
  ⟨(C3_failure_semantics (fun _ => Except.ok "Yes") 0 ⟨404, true, []⟩
      (fun _ => samplePage) false "Greylock" ⟨500, some []⟩).1 (by decide),
   (C3_failure_semantics (fun _ => Except.ok "Yes") 0 ⟨404, true, []⟩
      (fun _ => samplePage) false "Greylock" ⟨500, some []⟩).2.2 (by decide)⟩

/-- Claim C4, counterexample: an oracle transport error on a single
posting propagates out of the venture adapter as an exception — it is
not recovered locally as a rejection. -/
theorem C4_oracle_error_counterexample :
    scrape_venture_jobs (fun _ => samplePage) (fun _ => Except.error "APIConnectionError")
      false "Greylock" ⟨200, some [sampleVJob]⟩ =
      AdapterResult.raised "APIConnectionError" := by decide

/-- Claim C4 (amended): there is no try/except around the classification
call, so a transport or oracle error on one posting raises out of the
adapter (recovered only at the Run Controller top level); what is
treated as a rejection with the run continuing is a returned answer
without the affirmative token. -/
theorem C4_oracle_failure (e : String) :
    processVJob (fun _ => samplePage) (fun _ => Except.error e) "Greylock" sampleVJob =
      ItemStep.raised e
    ∧ scrape_venture_jobs (fun _ => samplePage) (fun _ => Except.error e) false "Greylock"
        ⟨200, some [sampleVJob]⟩ = AdapterResult.raised e
    ∧ scrape_venture_jobs (fun _ => samplePage) (fun _ => Except.ok "No") false "Greylock"
        ⟨200, some [sampleVJob, sampleVJob]⟩ = AdapterResult.ok [] true ["jobs saved"] :=
  ⟨rfl, rfl, by decide⟩

/-- Claim C5, counterexample: when the first (DS) job-type pass raises,
the exception is caught (status 500, no crash) but the second (CS) pass
never executes — the other pass does not still execute. -/
theorem C5_first_pass_counterexample :
    (lambda_handler (Except.error "boom") (Except.ok ())).csRan = false
    ∧ (lambda_handler (Except.error "boom") (Except.ok ())).statusCode = 500 := by
  decide

/-- Claim C5 (amended): both job-type passes sit inside one shared
try/except, which catches and logs any exception and returns a 500
response instead of crashing; an exception in the first (DS) pass
prevents the second (CS) pass from executing, while an exception in the
second pass leaves the completed first pass unaffected. -/
theorem C5_single_shared_guard (e : String) (cs : Except String Unit) :
    lambda_handler (Except.error e) cs = ⟨true, false, 500⟩
    ∧ lambda_handler (Except.ok ()) (Except.error e) = ⟨true, true, 500⟩
    ∧ lambda_handler (Except.ok ()) (Except.ok ()) = ⟨true, true, 200⟩ :=
  ⟨rfl, rfl, rfl⟩

/-- Claim C6, counterexample: for zero accepted postings
`pd.DataFrame([])` has no columns, so the file holds no header row at
all; and even for a nonempty sequence the header ends in `YC`, not
`Source` — in neither case is the first row the header the claim
states. -/
theorem C6_header_counterexample :
    (to_csv []).head? ≠ some specHeaderFields
    ∧ (to_csv [rowA]).head? ≠ some specHeaderFields := by decide

/-- Claim C6 (amended): for every nonempty sequence of accepted postings
the first row of the written file is the fixed header `Company, Job,
Details, Date/Time Posted, Link, YC`; for the empty sequence the file
holds a single empty row (a lone newline) with no header. -/
theorem C6_per_source_writer (rows : List Row) :
    (rows ≠ [] → (to_csv rows).head? = some headerFields) ∧ to_csv [] = [[]] := by
  refine ⟨fun h => ?_, rfl⟩
  cases rows with
  | nil => exact absurd rfl h
  | cons r rs => rfl

/-- Claim C6, witness: the writer theorem at a concrete nonempty list. -/
theorem C6_per_source_writer_witness :
    (to_csv [rowA]).head? = some headerFields :=
  (C6_per_source_writer [rowA]).1 (by decide)

/-- Claim C7, counterexample: the keyword list is joined into one regex,
so the keyword `Sr.` (a real keyword of both configurations) matches
`Sr` followed by ANY character: the title `Sra Engineer` is dropped by
the code although it does not contain `Sr.` as a plain substring — the
claimed drop-iff-plain-substring equivalence fails on punctuation
keywords. -/
theorem C7_regex_counterexample :
    dropTitle ["Sr."] "Sra Engineer" = true
    ∧ specSubstringDrop ["Sr."] "Sra Engineer" = false := by decide

/-- Claim C7 (amended): the exclusion filter drops a row exactly when
its title matches some keyword read as a case-insensitive regex pattern;
for keyword lists free of regex metacharacters this coincides with the
claimed plain-substring test, and the concrete examples behave as
stated: `Senior Software Engineer` is dropped and `Software Engineer II`
retained under the CS keyword list. -/
theorem C7_exclusion_filter (ks : List String) (t : String) :
    ((∀ k ∈ ks, ∀ c ∈ k.toList, c ≠ '.') → dropTitle ks t = specSubstringDrop ks t)
    ∧ dropTitle csExclusionKeywords "Senior Software Engineer" = true
    ∧ dropTitle csExclusionKeywords "Software Engineer II" = false := by
  refine ⟨?_, by decide, by decide⟩
  intro h
  unfold dropTitle specSubstringDrop
  induction ks with
  | nil => rfl
  | cons k rest ih =>
    simp only [List.any_cons]
    rw [show regexSearch k t = inStrCI k t from
          searchRegex_eq_searchCI k.toList (h k (List.mem_cons_self k rest)) t.toList,
        ih (fun x hx c hc => h x (List.mem_cons_of_mem _ hx) c hc)]

/-- Claim C7, witness: the exclusion theorem at a dot-free keyword list. -/
theorem C7_exclusion_filter_witness :
    dropTitle ["Senior"] "Senior Software Engineer" =
      specSubstringDrop ["Senior"] "Senior Software Engineer" :=
  (C7_exclusion_filter ["Senior"] "Senior Software Engineer").1 (by decide)

/-- Claim C8: date normalization tries the Unix-epoch-integer reading
first (winning whenever `int(...)` succeeds), then the textual formats
in order (the first format of the list winning when it parses), and
yields the sentinel when the integer reading and every format fail; the
three concrete examples behave exactly as stated. -/
theorem C8_convert_to_date :
    (∀ (s : String) (n : Int), pyInt s = some n →
      convert_to_date s = .valid (epochToDate n))
    ∧ (∀ (s : String) (d : Date), pyInt s = none → strptimeDate .isoOffset s = some d →
      convert_to_date s = .valid d)
    ∧ (∀ (s : String), pyInt s = none → (∀ f, strptimeDate f s = none) →
      convert_to_date s = .invalidDate)
    ∧ convert_to_date "1731598080" = .valid (epochToDate 1731598080)
    ∧ epochToDate 1731598080 = ⟨2024, 11, 14⟩
    ∧ convert_to_date "2024-12-06T15:06:00Z" = .valid ⟨2024, 12, 6⟩
    ∧ convert_to_date "not-a-date" = .invalidDate := by
  refine ⟨?_, ?_, ?_, by decide, by decide, by decide, by decide⟩
  · intro s n h; simp [convert_to_date, h]
  · intro s d h1 h2; simp [convert_to_date, firstParse, formats, h1, h2]
  · intro s h1 h2
    simp [convert_to_date, firstParse, formats, h1, h2 Fmt.isoOffset,
      h2 Fmt.isoFracOffset, h2 Fmt.isoZ, h2 Fmt.isoFracZ]

/-- Claim C8, witness: the date-normalization theorem applied at
concrete strings of each kind. -/
theorem C8_convert_to_date_witness :
    convert_to_date "0" = DateResult.valid (epochToDate 0)
    ∧ convert_to_date "2025-01-02T03:04:05Z" = DateResult.valid ⟨2025, 1, 2⟩
    ∧ convert_to_date "" = DateResult.invalidDate :=
  ⟨C8_convert_to_date.1 "0" 0 (by decide),
   C8_convert_to_date.2.1 "2025-01-02T03:04:05Z" ⟨2025, 1, 2⟩ (by decide) (by decide),
   C8_convert_to_date.2.2.1 "" (by decide) (fun f => by cases f <;> decide)⟩

/-- Claim C9 (code bug): the skip check of `main` requires every one of
the eight `config.filenames` paths to exist, but a DS pass never calls
`scrape_yc_jobs` and so never creates the `yc` file: even after a fully
successful DS run the check fails and the scrape phase re-runs; for a
fully successful CS run the check passes as claimed. -/
theorem C9_ds_rerun_never_skips :
    files_exist (scrapeWrites JobType.DS) = false
    ∧ files_exist (scrapeWrites JobType.CS) = true := by decide

/-- Claim C10 (code bug): when the date string is unparseable the
sentinel is retained, and the venture adapter indeed keeps the posting
with the sentinel in its date cell; but the Microsoft trailing-seven-day
window check compares the sentinel STRING against a `date` object, which
raises TypeError out of the adapter instead of evaluating without
error. -/
theorem C10_sentinel_window_check :
    convert_to_date "not-a-date" = DateResult.invalidDate
    ∧ processMSJob (fun _ => Except.ok "Yes") 20100 sampleMSJobBadDate =
        ItemStep.raised "TypeError: < not supported between instances of str and datetime.date"
    ∧ fetch_microsoft_jobs (fun _ => Except.ok "Yes") 20100 ⟨200, true, [sampleMSJobBadDate]⟩ =
        AdapterResult.raised "TypeError: < not supported between instances of str and datetime.date"
    ∧ processVJob (fun _ => samplePage) (fun _ => Except.ok "Yes") "Greylock" sampleVJobBadDate =
        ItemStep.kept ⟨"Beta", "Eng", "NYC", "Invalid Date", "https://x/2", "Greylock"⟩ := by
  refine ⟨by decide, by decide, by decide, by decide⟩

end JobScraper
